import Mathlib

/-!
Verification of the usgs-retrieval pipeline (src/retrieval_utils.py and
src/modules/retrieval_utils_appeearsTest.py).

The three stages — site locator (get_param_sites), granule finder
(get_site_granules), and temporal matcher (get_granule_results /
match_granules) — are shallowly embedded below.  HTTP responses are passed
in as explicit values (the response a given request would have received),
timestamps are integers (pandas Timestamps are fixed-precision counters),
and a Python exception that would escape a function is modelled by the
function returning `none`.  `pd.to_datetime` is a library routine and is
passed in as an explicit partial parsing function `parse : String → Option Int`.
-/

/-- Mirrors Option-valued `List.mapM`, written out so that proofs can unfold
it directly: fails iff `f` fails on some element. -/
def optionMapM (f : α → Option β) : List α → Option (List β)
  | [] => some []
  | a :: as =>
    match f a with
    | none => none
    | some b => (optionMapM f as).map (fun bs => b :: bs)

/-- Python `needle.isPrefix-like` check on character lists: `strStarts n h`
is true iff `n` is an initial segment of `h`. -/
def strStarts : List Char → List Char → Bool
  | [], _ => true
  | _ :: _, [] => false
  | a :: as, b :: bs => a == b && strStarts as bs

/-- `subList needle hay` is true iff `needle` occurs contiguously in `hay`. -/
def subList (needle : List Char) : List Char → Bool
  | [] => needle.isEmpty
  | c :: t => strStarts needle (c :: t) || subList needle t

/-- Python's `needle in hay` substring test. -/
def strContains (hay needle : String) : Bool :=
  subList needle.data hay.data

/-- Suffix test (`hay` ends with `needle`); this is the spec's reading of
"ends in a recognized data-file extension", used to compare against the
code's substring test. -/
def strEndsIn (hay needle : String) : Bool :=
  strStarts needle.data.reverse hay.data.reverse

/-! ## Granule finder: get_site_granules -/

/-- One element of a granule entry's `links` array. -/
structure GLink where
  href : String
deriving DecidableEq

/-- One granule entry of the CMR granule-search response. -/
structure GEntry where
  links : List GLink
  time_start : Option String
deriving DecidableEq

/-- One entry of the CMR collection-lookup response (`feed.entry`). -/
structure CollEntry where
  id : String
deriving DecidableEq

/-- The form parameters posted to the granule-search endpoint (`cmr_param`). -/
structure CmrQuery where
  collection_concept_id : String
  page_size : Nat
  page_num : Nat
  temporal : String
  point : String
deriving DecidableEq

/-- The granule record dict appended to `granule_arr`. -/
structure GranuleRow where
  site_no : String
  station_nm : String
  site_lat : String
  site_lon : String
  granule_urls : List String
  datetime : String
deriving DecidableEq

/-- The list comprehension filtering a granule's links:
`[x['href'] for x in g['links'] if 'https' in x['href'] and '.nc' in x['href'] and '.dmrpp' not in x['href']]`. -/
def filterGranuleUrls (links : List GLink) : List String :=
  (links.filter (fun x =>
    strContains x.href "https" && strContains x.href ".nc" &&
      !strContains x.href ".dmrpp")).map (fun x => x.href)

/-- The record built for one granule entry `g` (lines 50-61 of
retrieval_utils.py): filtered urls plus `g.get('time_start', 'N/A')`. -/
def mkGranuleRec (site_no station_nm site_lat site_lon : String)
    (g : GEntry) : GranuleRow :=
  { site_no := site_no, station_nm := station_nm, site_lat := site_lat,
    site_lon := site_lon, granule_urls := filterGranuleUrls g.links,
    datetime := g.time_start.getD "N/A" }

/-- The `while True` pagination loop of get_site_granules.  `pages n` is the
entry list the granule-search endpoint returns for page number `n`; the
result records every query issued together with the accumulated granule
records.  `none` means the fuel ran out before an empty page was seen. -/
def gsLoop (pages : Nat → List GEntry)
    (concept_id site_no station_nm site_lat site_lon temporal_str : String) :
    Nat → List GranuleRow → Nat → Option (List CmrQuery × List GranuleRow)
  | _, _, 0 => none
  | page_num, acc, fuel + 1 =>
    let q : CmrQuery :=
      { collection_concept_id := concept_id, page_size := 2000,
        page_num := page_num, temporal := temporal_str,
        point := s!"{site_lon},{site_lat}" }
    let granules := pages page_num
    if granules.isEmpty then
      some ([q], acc)
    else
      match gsLoop pages concept_id site_no station_nm site_lat site_lon
          temporal_str (page_num + 1)
          (acc ++ granules.map (mkGranuleRec site_no station_nm site_lat site_lon))
          fuel with
      | none => none
      | some (qs, res) => some (q :: qs, res)

/-- get_site_granules: resolves the concept id from the collection-lookup
response (`['feed']['entry'][0]['id']`; an empty entry list raises an
uncaught IndexError, modelled as `none`), then runs the pagination loop
starting at page 1. -/
def get_site_granules (site_no station_nm site_lat site_lon temporal_str : String)
    (collEntries : List CollEntry) (pages : Nat → List GEntry) (fuel : Nat) :
    Option (List CmrQuery × List GranuleRow) :=
  match collEntries with
  | [] => none
  | e :: _ =>
    gsLoop pages e.id site_no station_nm site_lat site_lon temporal_str 1 [] fuel

/-! ## Temporal matcher: get_granule_results -/

/-- One timestamped value of a time-series group. -/
structure TSValue where
  value : String
  dateTime : String
deriving DecidableEq

/-- One group of the `values` array of a time series. -/
structure TSGroup where
  value : List TSValue
deriving DecidableEq

structure TSUnit where
  unitCode : String
deriving DecidableEq

structure TSVariable where
  unit : TSUnit
deriving DecidableEq

/-- One element of `data['value']['timeSeries']`. -/
structure TimeSeries where
  «variable» : TSVariable
  values : List TSGroup
deriving DecidableEq

/-- The instantaneous-values response: HTTP status plus, when both the
`value` key and its `timeSeries` key are present, the time-series list. -/
structure IVResponse where
  statusCode : Nat
  body : Option (List TimeSeries)
deriving DecidableEq

/-- The candidate-reading dict appended to `results` in get_granule_results. -/
structure Reading where
  result : String
  result_unit : String
  result_time : String
deriving DecidableEq

def readingOfTS (ts : TimeSeries) (v : TSValue) : Reading :=
  { result := v.value, result_unit := ts.«variable».unit.unitCode,
    result_time := v.dateTime }

/-- The nested loop `for ts in ...: for value in ts['values'][0]['value']:`.
Only the FIRST group of each time series is read; `ts['values'][0]` on an
empty `values` array raises (modelled as `none`). -/
def collectTS : List TimeSeries → Option (List Reading)
  | [] => some []
  | ts :: rest =>
    match ts.values with
    | [] => none
    | g :: _ =>
      match collectTS rest with
      | none => none
      | some tail => some (g.value.map (readingOfTS ts) ++ tail)

/-- get_granule_results, applied to the response the time-series endpoint
returned: non-200 or a body missing the `value`/`timeSeries` keys yields the
empty list. -/
def get_granule_results (resp : IVResponse) : Option (List Reading) :=
  if resp.statusCode = 200 then
    match resp.body with
    | none => some []
    | some tss => collectTS tss
  else some []

/-! ## Temporal matcher: match_granules -/

/-- The output-row dict built as `closest_result` in match_granules. -/
structure MatchRow where
  site_no : String
  station_nm : String
  site_lat : String
  site_lon : String
  granule_time : Int
  granule_urls : List String
  result : String
  result_unit : String
  result_time : String
deriving DecidableEq

/-- `pd.Timedelta.max` in nanoseconds, the initial value of `closest_time`. -/
def timedeltaMax : Nat := 9223372036854775807

/-- The pair of loop variables `(closest_result, closest_time)`. -/
structure MatchState where
  closest_result : Option MatchRow
  closest_time : Nat
deriving DecidableEq

def initState : MatchState := { closest_result := none, closest_time := timedeltaMax }

def mkMatchRow (row : GranuleRow) (granule_time : Int) (r : Reading) : MatchRow :=
  { site_no := row.site_no, station_nm := row.station_nm,
    site_lat := row.site_lat, site_lon := row.site_lon,
    granule_time := granule_time, granule_urls := row.granule_urls,
    result := r.result, result_unit := r.result_unit,
    result_time := r.result_time }

/-- The body of `for result in result_data:`: parse the reading's time
(`pd.to_datetime`, raising — `none` — when unparseable), compare the
absolute difference against `closest_time` with a strict `<`. -/
def processReading (parse : String → Option Int) (granule_time : Int)
    (row : GranuleRow) (st : MatchState) (r : Reading) : Option MatchState :=
  match parse r.result_time with
  | none => none
  | some result_time =>
    let time_between := (result_time - granule_time).natAbs
    if time_between < st.closest_time then
      some { closest_result := some (mkMatchRow row granule_time r),
             closest_time := time_between }
    else some st

def processReadings (parse : String → Option Int) (granule_time : Int)
    (row : GranuleRow) : MatchState → List Reading → Option MatchState
  | st, [] => some st
  | st, r :: rs =>
    match processReading parse granule_time row st r with
    | none => none
    | some st2 => processReadings parse granule_time row st2 rs

/-- The body of `for param_cd in param_codes:`: fetch the readings for this
parameter code, scan them, and then — still inside this loop, exactly as in
the source — append the current `closest_result` to `results` whenever it is
set.  Returns the final state together with the appended rows. -/
def processParams (parse : String → Option Int) (fetchR : String → IVResponse)
    (granule_time : Int) (row : GranuleRow) :
    MatchState → List MatchRow → List String → Option (MatchState × List MatchRow)
  | st, out, [] => some (st, out)
  | st, out, param_cd :: pcs =>
    match get_granule_results (fetchR param_cd) with
    | none => none
    | some result_data =>
      match (if result_data.isEmpty then some st
             else processReadings parse granule_time row st result_data) with
      | none => none
      | some st2 =>
        let out2 := match st2.closest_result with
          | some cr => out ++ [cr]
          | none => out
        processParams parse fetchR granule_time row st2 out2 pcs

/-- The rows match_granules appends while processing one granule row.
`fetch site_no granule_time param_cd` is the response of the time-series
endpoint for that query. -/
def rowsForGranule (parse : String → Option Int)
    (fetch : String → Int → String → IVResponse) (param_codes : List String)
    (row : GranuleRow) : Option (List MatchRow) :=
  match parse row.datetime with
  | none => none
  | some granule_time =>
    (processParams parse (fun pc => fetch row.site_no granule_time pc)
        granule_time row initState [] param_codes).map (fun p => p.2)

/-- match_granules over the granule table; a raise anywhere (`none`) aborts
the whole call, discarding all accumulated results. -/
def match_granules (parse : String → Option Int)
    (fetch : String → Int → String → IVResponse) (param_codes : List String) :
    List GranuleRow → Option (List MatchRow)
  | [] => some []
  | g :: gs =>
    match rowsForGranule parse fetch param_codes g with
    | none => none
    | some rs => (match_granules parse fetch param_codes gs).map (fun rest => rs ++ rest)

/-! ### Derived notions used to state the matcher claims -/

/-- A candidate paired with its parsed timestamp. -/
abbrev Cand := Reading × Int

def distTo (granule_time : Int) (c : Cand) : Nat :=
  (c.2 - granule_time).natAbs

/-- The pure update step on `(closest_result, closest_time)` for one
already-parsed candidate. -/
def stepCand (granule_time : Int) (row : GranuleRow) (st : MatchState) (c : Cand) :
    MatchState :=
  if distTo granule_time c < st.closest_time then
    { closest_result := some (mkMatchRow row granule_time c.1),
      closest_time := distTo granule_time c }
  else st

/-- Pair every reading with its parsed time; fails iff some time is
unparseable. -/
def pairTimes (parse : String → Option Int) (rs : List Reading) :
    Option (List Cand) :=
  optionMapM (fun r => (parse r.result_time).map (fun t => (r, t))) rs

/-- All candidate readings a granule sees, in encounter order, across the
parameter codes. -/
def allCandidates (parse : String → Option Int) (fetchR : String → IVResponse)
    (param_codes : List String) : Option (List Cand) :=
  match optionMapM (fun pc => get_granule_results (fetchR pc)) param_codes with
  | none => none
  | some datas => pairTimes parse datas.flatten

/-- Running minimum distance, seeded at `t0`. -/
def minDistFrom (granule_time : Int) (t0 : Nat) (cs : List Cand) : Nat :=
  cs.foldl (fun a c => min a (distTo granule_time c)) t0

/-! ## Site locator: get_param_sites (multi-region variant of
src/modules/retrieval_utils_appeearsTest.py) -/

/-- One region's site-metadata response: HTTP status and the lines of the
body. -/
structure RdbResp where
  status : Nat
  lines : List String
deriving DecidableEq

/-- Python's `line.startswith(p)`. -/
def pyStartsWith (l p : String) : Bool := strStarts p.data l.data

/-- Python's falsy `line.strip()`: true iff the line is all whitespace. -/
def pyIsBlank (l : String) : Bool := l.data.all (fun c => c.isWhitespace)

/-- `[line for line in lines if not line.startswith('#') and line.strip()]`. -/
def rdbDataLines (resp : RdbResp) : List String :=
  resp.lines.filter (fun l => !(pyStartsWith l "#") && !(pyIsBlank l))

/-- Python's `line.split(sep)` for a one-character separator, on the
character list. -/
def splitTabAux : List Char → List Char → List String
  | [], cur => [String.mk cur.reverse]
  | c :: rest, cur =>
    if c = '\t' then String.mk cur.reverse :: splitTabAux rest []
    else splitTabAux rest (c :: cur)

/-- Python's `line.split('\t')`. -/
def splitTab (l : String) : List String := splitTabAux l.data []

/-- Column index by header name; `none` models a KeyError. -/
def colIdx (headers : List String) (name : String) : Option Nat :=
  List.findIdx? (fun h => h = name) headers

/-- Processing of one region inside get_param_sites' loop.  Outer `none`
models an uncaught exception (missing column); `some none` means nothing is
appended for this region; `some (some rows)` is the projected table appended
to `dfs` (possibly empty after the site-type filter). -/
def processState (site_types : List String) (resp : RdbResp) :
    Option (Option (List (List String))) :=
  if resp.status = 200 then
    match rdbDataLines resp with
    | [] => some none
    | h0 :: restLines =>
      let headers := splitTab h0
      let rows := ((h0 :: restLines).drop 2).map splitTab
      if rows.isEmpty then some none
      else
        match colIdx headers "site_tp_cd", colIdx headers "site_no",
            colIdx headers "station_nm", colIdx headers "dec_lat_va",
            colIdx headers "dec_long_va" with
        | some tp, some c1, some c2, some c3, some c4 =>
          let filtered := rows.filter (fun r => site_types.contains (r.getD tp ""))
          some (some (filtered.map (fun r =>
            [r.getD c1 "", r.getD c2 "", r.getD c3 "", r.getD c4 ""])))
        | _, _, _, _, _ => none
  else some none

/-- The `dfs` list accumulated over the regions. -/
def gpsCollect (site_types : List String) (resps : List RdbResp) :
    Option (List (List (List String))) :=
  (optionMapM (processState site_types) resps).map (List.filterMap id)

/-- get_param_sites over the batch of region responses.  Returns the
printed messages together with the concatenated site table. -/
def get_param_sites (site_types : List String) (resps : List RdbResp) :
    Option (List String × List (List String)) :=
  match gpsCollect site_types resps with
  | none => none
  | some [] => some (["No sites found for any states"], [])
  | some (d :: ds) =>
    some ([toString ((d :: ds).flatten).length], (d :: ds).flatten)


/-! ## Lemmas about the matcher's scanning loop -/

theorem optionMapM_nil (f : α → Option β) : optionMapM f [] = some [] := rfl

theorem optionMapM_cons (f : α → Option β) (a : α) (as : List α) :
    optionMapM f (a :: as) =
      (f a).bind (fun b => (optionMapM f as).map (fun bs => b :: bs)) := by
  cases hfa : f a <;> simp [optionMapM, hfa]

theorem optionMapM_append (f : α → Option β) (as bs : List α) :
    optionMapM f (as ++ bs) =
      (optionMapM f as).bind (fun ca => (optionMapM f bs).map (fun cb => ca ++ cb)) := by
  induction as with
  | nil =>
    rw [List.nil_append, optionMapM_nil, Option.some_bind]
    cases optionMapM f bs <;> simp
  | cons a as ih =>
    rw [List.cons_append, optionMapM_cons, optionMapM_cons, ih]
    cases f a with
    | none => simp
    | some b =>
      cases optionMapM f as with
      | none => simp
      | some ca =>
        cases optionMapM f bs <;> simp

theorem pairTimes_append (parse : String → Option Int) (as bs : List Reading)
    (cs : List Cand) (h : pairTimes parse (as ++ bs) = some cs) :
    ∃ ca cb, pairTimes parse as = some ca ∧ pairTimes parse bs = some cb ∧
      cs = ca ++ cb := by
  unfold pairTimes at *
  rw [optionMapM_append] at h
  cases hca : optionMapM (fun r => (parse r.result_time).map (fun t => (r, t))) as with
  | none => rw [hca] at h; simp at h
  | some ca =>
    rw [hca] at h
    cases hcb : optionMapM (fun r => (parse r.result_time).map (fun t => (r, t))) bs with
    | none => rw [hcb] at h; simp at h
    | some cb =>
      rw [hcb] at h
      simp at h
      exact ⟨ca, cb, rfl, rfl, h.symm⟩

theorem processReadings_eq_foldl (parse : String → Option Int) (granule_time : Int)
    (row : GranuleRow) :
    ∀ (rs : List Reading) (cs : List Cand) (st : MatchState),
      pairTimes parse rs = some cs →
      processReadings parse granule_time row st rs =
        some (cs.foldl (stepCand granule_time row) st) := by
  intro rs
  induction rs with
  | nil =>
    intro cs st h
    rw [pairTimes, optionMapM_nil, Option.some_inj] at h
    subst h
    rfl
  | cons r rs ih =>
    intro cs st h
    rw [pairTimes, optionMapM_cons] at h
    cases hp : parse r.result_time with
    | none => rw [hp] at h; simp at h
    | some t =>
      rw [hp] at h
      simp only [Option.map_some', Option.some_bind] at h
      cases hrest : optionMapM (fun r => (parse r.result_time).map (fun t => (r, t))) rs with
      | none => rw [hrest] at h; simp at h
      | some cs' =>
        rw [hrest] at h
        simp only [Option.map_some', Option.some_inj] at h
        subst h
        have hpr : processReading parse granule_time row st r
            = some (stepCand granule_time row st (r, t)) := by
          simp only [processReading, hp, stepCand, distTo]
          by_cases hlt : (t - granule_time).natAbs < st.closest_time
          · simp [hlt]
          · simp [hlt]
        simp only [processReadings, hpr, List.foldl_cons]
        exact ih cs' _ (by rw [pairTimes, hrest])

theorem minDistFrom_nil (granule_time : Int) (t : Nat) :
    minDistFrom granule_time t [] = t := rfl

theorem minDistFrom_cons (granule_time : Int) (t : Nat) (c : Cand) (cs : List Cand) :
    minDistFrom granule_time t (c :: cs) =
      minDistFrom granule_time (min t (distTo granule_time c)) cs := rfl

theorem minDistFrom_le (granule_time : Int) :
    ∀ (cs : List Cand) (t : Nat), minDistFrom granule_time t cs ≤ t := by
  intro cs
  induction cs with
  | nil => intro t; exact Nat.le_refl t
  | cons c cs ih =>
    intro t
    calc minDistFrom granule_time (min t (distTo granule_time c)) cs
        ≤ min t (distTo granule_time c) := ih _
      _ ≤ t := Nat.min_le_left _ _

/-- The running strict-minimum scan computes, over any candidate list, the
minimum distance, and selects the FIRST candidate attaining it (equal
distances never overwrite the current best). -/
theorem foldl_stepCand_char (granule_time : Int) (row : GranuleRow) :
    ∀ (cs : List Cand) (r : Option MatchRow) (t : Nat),
      cs.foldl (stepCand granule_time row) { closest_result := r, closest_time := t } =
        { closest_result :=
            if minDistFrom granule_time t cs < t then
              (cs.find? (fun c => distTo granule_time c == minDistFrom granule_time t cs)).map
                (fun c => mkMatchRow row granule_time c.1)
            else r,
          closest_time := minDistFrom granule_time t cs } := by
  intro cs
  induction cs with
  | nil =>
    intro r t
    simp [minDistFrom_nil]
  | cons c cs ih =>
    intro r t
    rw [List.foldl_cons, minDistFrom_cons]
    by_cases hlt : distTo granule_time c < t
    · have hstep : stepCand granule_time row { closest_result := r, closest_time := t } c =
          { closest_result := some (mkMatchRow row granule_time c.1),
            closest_time := distTo granule_time c } := by
        unfold stepCand; rw [if_pos hlt]
      rw [hstep, ih]
      have hmin : min t (distTo granule_time c) = distTo granule_time c :=
        Nat.min_eq_right (Nat.le_of_lt hlt)
      rw [hmin]
      by_cases heq : minDistFrom granule_time (distTo granule_time c) cs < distTo granule_time c
      · have hfind : (c :: cs).find?
            (fun x => distTo granule_time x == minDistFrom granule_time (distTo granule_time c) cs)
            = cs.find? (fun x => distTo granule_time x == minDistFrom granule_time (distTo granule_time c) cs) :=
          List.find?_cons_of_neg _ (by simp only [beq_iff_eq]; omega)
        rw [if_pos heq, if_pos (Nat.lt_trans heq hlt), hfind]
      · have hle : minDistFrom granule_time (distTo granule_time c) cs ≤ distTo granule_time c :=
          minDistFrom_le granule_time cs _
        have heq2 : minDistFrom granule_time (distTo granule_time c) cs = distTo granule_time c := by
          omega
        rw [if_neg heq, heq2, if_pos hlt]
        have hfind : (c :: cs).find?
            (fun x => distTo granule_time x == distTo granule_time c) = some c :=
          List.find?_cons_of_pos _ (by simp)
        rw [hfind]
        rfl
    · have hstep : stepCand granule_time row { closest_result := r, closest_time := t } c =
          { closest_result := r, closest_time := t } := by
        unfold stepCand; rw [if_neg hlt]
      rw [hstep, ih]
      have hmin : min t (distTo granule_time c) = t :=
        Nat.min_eq_left (Nat.le_of_not_lt hlt)
      rw [hmin]
      by_cases hm : minDistFrom granule_time t cs < t
      · have hfind : (c :: cs).find?
            (fun x => distTo granule_time x == minDistFrom granule_time t cs)
            = cs.find? (fun x => distTo granule_time x == minDistFrom granule_time t cs) :=
          List.find?_cons_of_neg _ (by simp only [beq_iff_eq]; omega)
        rw [if_pos hm, if_pos hm, hfind]
      · rw [if_neg hm, if_neg hm]

/-- When every fetch succeeds and every reading's timestamp parses, the
final `(closest_result, closest_time)` state of the parameter-code loop is
the fold of the pure update step over all candidates in encounter order. -/
theorem processParams_state (parse : String → Option Int) (fetchR : String → IVResponse)
    (granule_time : Int) (row : GranuleRow) :
    ∀ (pcs : List String) (datas : List (List Reading)) (cs : List Cand)
      (st : MatchState) (out : List MatchRow),
      optionMapM (fun pc => get_granule_results (fetchR pc)) pcs = some datas →
      pairTimes parse datas.flatten = some cs →
      ∃ out2, processParams parse fetchR granule_time row st out pcs =
        some (cs.foldl (stepCand granule_time row) st, out2) := by
  intro pcs
  induction pcs with
  | nil =>
    intro datas cs st out hd hc
    rw [optionMapM_nil, Option.some_inj] at hd
    subst hd
    simp only [List.flatten_nil] at hc
    rw [pairTimes, optionMapM_nil, Option.some_inj] at hc
    subst hc
    exact ⟨out, rfl⟩
  | cons pc pcs ih =>
    intro datas cs st out hd hc
    rw [optionMapM_cons] at hd
    cases hres : get_granule_results (fetchR pc) with
    | none => rw [hres] at hd; simp at hd
    | some d =>
      rw [hres] at hd
      simp only [Option.some_bind] at hd
      cases hrest : optionMapM (fun pc => get_granule_results (fetchR pc)) pcs with
      | none => rw [hrest] at hd; simp at hd
      | some datas' =>
        rw [hrest] at hd
        simp only [Option.map_some', Option.some_inj] at hd
        subst hd
        rw [List.flatten_cons] at hc
        obtain ⟨ca, cb, hca, hcb, hcs⟩ := pairTimes_append parse d datas'.flatten cs hc
        subst hcs
        have hscan : (if d.isEmpty then some st
            else processReadings parse granule_time row st d) =
            some (ca.foldl (stepCand granule_time row) st) := by
          by_cases hde : d.isEmpty
          · have hdnil : d = [] := List.isEmpty_iff.mp hde
            subst hdnil
            rw [pairTimes, optionMapM_nil, Option.some_inj] at hca
            subst hca
            rfl
          · rw [if_neg hde]
            exact processReadings_eq_foldl parse granule_time row d ca st hca
        set st2 := ca.foldl (stepCand granule_time row) st with hst2
        set out2 := (match st2.closest_result with
          | some cr => out ++ [cr]
          | none => out) with hout2
        obtain ⟨out3, hout3⟩ := ih datas' cb st2 out2 hrest hcb
        refine ⟨out3, ?_⟩
        rw [processParams, hres]
        simp only [Option.some_bind]
        rw [hscan]
        simp only [← hout2]
        rw [hout3, List.foldl_append]

/-- If every parameter code yields an empty reading list and no best has
been found yet, the parameter-code loop changes nothing and appends
nothing. -/
theorem processParams_allEmpty (parse : String → Option Int) (fetchR : String → IVResponse)
    (granule_time : Int) (row : GranuleRow) :
    ∀ (pcs : List String) (st : MatchState) (out : List MatchRow),
      st.closest_result = none →
      (∀ pc ∈ pcs, get_granule_results (fetchR pc) = some []) →
      processParams parse fetchR granule_time row st out pcs = some (st, out) := by
  intro pcs
  induction pcs with
  | nil => intro st out _ _; rfl
  | cons pc pcs ih =>
    intro st out hst h
    rw [processParams, h pc (List.mem_cons_self pc pcs)]
    simp only [Option.some_bind, List.isEmpty_nil, if_pos]
    rw [hst]
    exact ih st out hst (fun pc' hpc' => h pc' (List.mem_cons_of_mem pc hpc'))

/-! ## Concrete fixtures for the matcher claims -/

/-- A model of `pd.to_datetime` for the fixture timestamps (values in
seconds): granule time "g" at 0, reading times "rA" at 600 (10 min away)
and "rB" at 300 (5 min away). -/
def cParse : String → Option Int := fun s =>
  if s = "g" then some 0
  else if s = "rA" then some 600
  else if s = "rB" then some 300
  else none

def cResp (vs : List TSValue) : IVResponse :=
  { statusCode := 200,
    body := some [{ «variable» := { unit := { unitCode := "ft" } },
                    values := [{ value := vs }] }] }

def cEmptyResp : IVResponse := { statusCode := 200, body := some [] }

/-- Endpoint behaviour: parameter code "a" returns one reading ("rA"),
all other codes return nothing. -/
def cFetchOne : String → Int → String → IVResponse := fun _ _ pc =>
  if pc = "a" then cResp [{ value := "7.0", dateTime := "rA" }] else cEmptyResp

/-- Endpoint behaviour: code "a" returns the reading 10 minutes away,
code "b" the reading 5 minutes away. -/
def cFetchTwo : String → Int → String → IVResponse := fun _ _ pc =>
  if pc = "a" then cResp [{ value := "7.0", dateTime := "rA" }]
  else if pc = "b" then cResp [{ value := "8.0", dateTime := "rB" }]
  else cEmptyResp

def cFetchR : String → IVResponse := fun pc => cFetchTwo "01646500" 0 pc

def cGranule : GranuleRow :=
  { site_no := "01646500", station_nm := "SITE", site_lat := "38.9",
    site_lon := "-77.1", granule_urls := ["https://x/a.nc"], datetime := "g" }

def cRowA : MatchRow :=
  { site_no := "01646500", station_nm := "SITE", site_lat := "38.9",
    site_lon := "-77.1", granule_time := 0, granule_urls := ["https://x/a.nc"],
    result := "7.0", result_unit := "ft", result_time := "rA" }

def cRowB : MatchRow :=
  { site_no := "01646500", station_nm := "SITE", site_lat := "38.9",
    site_lon := "-77.1", granule_time := 0, granule_urls := ["https://x/a.nc"],
    result := "8.0", result_unit := "ft", result_time := "rB" }

def cCands : List Cand :=
  [({ result := "7.0", result_unit := "ft", result_time := "rA" }, 600),
   ({ result := "8.0", result_unit := "ft", result_time := "rB" }, 300)]

def cStOut : MatchState × List MatchRow :=
  ({ closest_result := some cRowB, closest_time := 300 }, [cRowA, cRowB])

/-- Claim C1 (evaluation of the code at a failing input): a single granule
with two parameter codes, where only the first code returns a candidate,
makes match_granules emit TWO output rows for that granule (the append
sits inside the parameter-code loop), not exactly one. -/
theorem claim1_eval :
    match_granules cParse cFetchOne ["a", "b"] [cGranule] = some [cRowA, cRowA]
    ∧ [cRowA, cRowA].length = 2 := by
  exact ⟨by decide, rfl⟩

/-- Claim C2 (evaluation of the code at a failing input): with a
distance-600 candidate under the first parameter code and a distance-300
candidate under the second, the first emitted row carries the distance-600
reading even though a strictly closer candidate exists, so not every
emitted row is at minimal distance. -/
theorem claim2_eval :
    rowsForGranule cParse cFetchTwo ["a", "b"] cGranule = some [cRowA, cRowB]
    ∧ cParse cRowA.result_time = some 600
    ∧ cParse cRowB.result_time = some 300
    ∧ distTo 0 (({ result := "8.0", result_unit := "ft", result_time := "rB" } : Reading), 300)
        < distTo 0 (({ result := "7.0", result_unit := "ft", result_time := "rA" } : Reading), 600) := by
  exact ⟨by decide, by decide, by decide, by decide⟩

/-- Claim C4: closeness is absolute time difference compared with a strict
`<`; a candidate whose distance equals (or exceeds) the current best never
overwrites it, a strictly smaller one always does, and therefore the final
selected match is the FIRST candidate, in encounter order across all
parameter codes, attaining the minimal distance. -/
theorem claim4_tie_break (parse : String → Option Int) (fetchR : String → IVResponse)
    (granule_time : Int) (row : GranuleRow) (pcs : List String) (cs : List Cand)
    (stOut : MatchState × List MatchRow)
    (hc : allCandidates parse fetchR pcs = some cs)
    (hp : processParams parse fetchR granule_time row initState [] pcs = some stOut) :
    (∀ st c, ¬ distTo granule_time c < st.closest_time →
        stepCand granule_time row st c = st)
    ∧ (∀ st c, distTo granule_time c < st.closest_time →
        stepCand granule_time row st c =
          { closest_result := some (mkMatchRow row granule_time c.1),
            closest_time := distTo granule_time c })
    ∧ stOut.1.closest_result =
        (if minDistFrom granule_time timedeltaMax cs < timedeltaMax then
          (cs.find? (fun c => distTo granule_time c == minDistFrom granule_time timedeltaMax cs)).map
            (fun c => mkMatchRow row granule_time c.1)
        else none) := by
  refine ⟨?_, ?_, ?_⟩
  · intro st c hge
    unfold stepCand
    rw [if_neg hge]
  · intro st c hlt
    unfold stepCand
    rw [if_pos hlt]
  · rw [allCandidates] at hc
    cases hd : optionMapM (fun pc => get_granule_results (fetchR pc)) pcs with
    | none => rw [hd] at hc; simp at hc
    | some datas =>
      rw [hd] at hc
      obtain ⟨out2, hout2⟩ :=
        processParams_state parse fetchR granule_time row pcs datas cs initState [] hd hc
      rw [hp] at hout2
      have hfst : stOut.1 = cs.foldl (stepCand granule_time row) initState := by
        have := Option.some_inj.mp hout2
        rw [this]
      rw [hfst]
      have hchar := foldl_stepCand_char granule_time row cs none timedeltaMax
      have hinit : initState =
          { closest_result := none, closest_time := timedeltaMax } := rfl
      rw [hinit, hchar]

/-- Witness for C4 at the fixture: two candidates at distances 600 and
300; the final best is the distance-300 row. -/
theorem claim4_witness :
    allCandidates cParse cFetchR ["a", "b"] = some cCands
    ∧ processParams cParse cFetchR 0 cGranule initState [] ["a", "b"] = some cStOut
    ∧ cStOut.1.closest_result =
        (if minDistFrom 0 timedeltaMax cCands < timedeltaMax then
          (cCands.find? (fun c => distTo 0 c == minDistFrom 0 timedeltaMax cCands)).map
            (fun c => mkMatchRow cGranule 0 c.1)
        else none) :=
  ⟨by decide, by decide,
   (claim4_tie_break cParse cFetchR 0 cGranule ["a", "b"] cCands cStOut
     (by decide) (by decide)).2.2⟩

/-- Claim C6: a granule for which every parameter code yields zero
candidate readings produces zero output rows, and processing simply
continues with the remaining granules. -/
theorem claim6_no_candidates (parse : String → Option Int)
    (fetch : String → Int → String → IVResponse) (pcs : List String)
    (row : GranuleRow) (granule_time : Int) (gs : List GranuleRow)
    (hg : parse row.datetime = some granule_time)
    (h : ∀ pc ∈ pcs, get_granule_results (fetch row.site_no granule_time pc) = some []) :
    rowsForGranule parse fetch pcs row = some []
    ∧ match_granules parse fetch pcs (row :: gs) = match_granules parse fetch pcs gs := by
  have h1 : rowsForGranule parse fetch pcs row = some [] := by
    simp only [rowsForGranule, hg]
    rw [processParams_allEmpty parse _ granule_time row pcs initState [] rfl h]
    rfl
  refine ⟨h1, ?_⟩
  simp only [match_granules, h1]
  cases match_granules parse fetch pcs gs <;> simp

/-- Witness for C6: one granule, one parameter code returning an empty
reading list; no row is emitted and matching continues. -/
theorem claim6_witness :
    cParse cGranule.datetime = some 0
    ∧ (∀ pc ∈ ["z"], get_granule_results (cFetchOne cGranule.site_no 0 pc) = some [])
    ∧ rowsForGranule cParse cFetchOne ["z"] cGranule = some []
    ∧ match_granules cParse cFetchOne ["z"] (cGranule :: []) = match_granules cParse cFetchOne ["z"] [] :=
  ⟨by decide, by decide,
   (claim6_no_candidates cParse cFetchOne ["z"] cGranule 0 [] (by decide) (by decide)).1,
   (claim6_no_candidates cParse cFetchOne ["z"] cGranule 0 [] (by decide) (by decide)).2⟩

/-- Claim C10: a granule record built by the granule finder for an entry
with no start time carries the sentinel "N/A" datetime, and match_granules
then fails (uncaught parse error) on that record instead of skipping it:
the whole call returns no result at all. -/
theorem claim10_na_failure (parse : String → Option Int)
    (fetch : String → Int → String → IVResponse) (pcs : List String)
    (site_no station_nm site_lat site_lon : String) (g : GEntry)
    (rest : List GranuleRow)
    (hts : g.time_start = none) (hp : parse "N/A" = none) :
    (mkGranuleRec site_no station_nm site_lat site_lon g).datetime = "N/A"
    ∧ rowsForGranule parse fetch pcs (mkGranuleRec site_no station_nm site_lat site_lon g) = none
    ∧ match_granules parse fetch pcs
        (mkGranuleRec site_no station_nm site_lat site_lon g :: rest) = none := by
  have h1 : (mkGranuleRec site_no station_nm site_lat site_lon g).datetime = "N/A" := by
    simp only [mkGranuleRec, hts, Option.getD_none]
  have h2 : rowsForGranule parse fetch pcs
      (mkGranuleRec site_no station_nm site_lat site_lon g) = none := by
    simp only [rowsForGranule, h1, hp]
  exact ⟨h1, h2, by simp only [match_granules, h2]⟩

/-- Witness for C10: a concrete no-start-time entry aborts the whole
matching run. -/
theorem claim10_witness :
    (({ links := [], time_start := none } : GEntry)).time_start = none
    ∧ cParse "N/A" = none
    ∧ match_granules cParse cFetchOne ["a"]
        (mkGranuleRec "s" "n" "1.0" "2.0" { links := [], time_start := none } :: [cGranule]) = none :=
  ⟨rfl, by decide,
   (claim10_na_failure cParse cFetchOne ["a"] "s" "n" "1.0" "2.0"
     { links := [], time_start := none } [cGranule] rfl (by decide)).2.2⟩

/-! ## Claim C3: which (group, value) pairs become candidates -/

/-- Fixture response: one time series whose `values` array has TWO groups,
one timestamped value in each. -/
def tssC3 : List TimeSeries :=
  [{ «variable» := { unit := { unitCode := "ft" } },
     values := [{ value := [{ value := "1", dateTime := "T1" }] },
                { value := [{ value := "2", dateTime := "T2" }] }] }]

def respC3 : IVResponse := { statusCode := 200, body := some tssC3 }

/-- Claim C3 counterexample: the response contains the (group, value) pair
(second group, value "2"), yet its reading is absent from the returned
candidate list — only the first group of each time series is read. -/
theorem claim3_counterexample :
    get_granule_results respC3 = some [{ result := "1", result_unit := "ft", result_time := "T1" }]
    ∧ ∃ ts ∈ tssC3, ∃ grp ∈ ts.values, ∃ v ∈ grp.value,
        readingOfTS ts v = { result := "2", result_unit := "ft", result_time := "T2" }
        ∧ readingOfTS ts v ∉
            [({ result := "1", result_unit := "ft", result_time := "T1" } : Reading)] := by
  refine ⟨by decide, ?_⟩
  refine ⟨tssC3.headD
    { «variable» := { unit := { unitCode := "" } }, values := [] }, by decide, ?_⟩
  refine ⟨{ value := [{ value := "2", dateTime := "T2" }] }, by decide, ?_⟩
  exact ⟨{ value := "2", dateTime := "T2" }, by decide, by decide, by decide⟩

theorem collectTS_char :
    ∀ (tss : List TimeSeries) (out : List Reading), collectTS tss = some out →
      out = (tss.map (fun ts =>
        (ts.values.headD { value := [] }).value.map (readingOfTS ts))).flatten := by
  intro tss
  induction tss with
  | nil =>
    intro out h
    rw [collectTS, Option.some_inj] at h
    subst h
    rfl
  | cons ts rest ih =>
    intro out h
    rw [collectTS] at h
    cases hv : ts.values with
    | nil => rw [hv] at h; simp at h
    | cons g gs =>
      rw [hv] at h
      cases hrest : collectTS rest with
      | none => rw [hrest] at h; simp at h
      | some tail =>
        rw [hrest, Option.some_inj] at h
        subst h
        rw [List.map_cons, List.flatten_cons, hv, ih tail hrest]
        rfl

/-- Claim C3 amended: for every time series in the response, every
timestamped value of its FIRST group becomes a candidate reading, in
order; groups after the first contribute nothing.  The output is exactly
the concatenation of the first groups' readings. -/
theorem claim3_first_group (resp : IVResponse) (tss : List TimeSeries)
    (out : List Reading)
    (h200 : resp.statusCode = 200) (hb : resp.body = some tss)
    (hout : get_granule_results resp = some out) :
    out = (tss.map (fun ts =>
      (ts.values.headD { value := [] }).value.map (readingOfTS ts))).flatten := by
  rw [get_granule_results, if_pos h200, hb] at hout
  exact collectTS_char tss out hout

/-- Witness for C3 (amended) at the two-group fixture. -/
theorem claim3_witness :
    respC3.statusCode = 200 ∧ respC3.body = some tssC3
    ∧ get_granule_results respC3 = some [{ result := "1", result_unit := "ft", result_time := "T1" }]
    ∧ [({ result := "1", result_unit := "ft", result_time := "T1" } : Reading)]
        = (tssC3.map (fun ts =>
            (ts.values.headD { value := [] }).value.map (readingOfTS ts))).flatten :=
  ⟨rfl, rfl, by decide,
   claim3_first_group respC3 tssC3
     [{ result := "1", result_unit := "ft", result_time := "T1" }] rfl rfl (by decide)⟩

/-! ## Claim C5: the granule URL filter -/

/-- Claim C5 counterexample: "https://e/a.nc4" passes the code's filter
(substring tests) yet does not END in the ".nc" extension, so the claim's
"ends in the recognized data-file extension" is violated by an emitted
URL. -/
theorem claim5_counterexample :
    "https://e/a.nc4" ∈ filterGranuleUrls [{ href := "https://e/a.nc4" }]
    ∧ strEndsIn "https://e/a.nc4" ".nc" = false := by
  exact ⟨by decide, by decide⟩

/-- Claim C5 amended: every URL in the filtered list CONTAINS "https",
CONTAINS ".nc" and does not contain ".dmrpp" (substring tests, not a
secure-scheme check nor a suffix check); no link violating these substring
conditions appears. -/
theorem claim5_url_filter (links : List GLink) (u : String)
    (hu : u ∈ filterGranuleUrls links) :
    strContains u "https" = true ∧ strContains u ".nc" = true
    ∧ strContains u ".dmrpp" = false := by
  unfold filterGranuleUrls at hu
  rw [List.mem_map] at hu
  obtain ⟨x, hx, hxu⟩ := hu
  rw [List.mem_filter] at hx
  obtain ⟨-, hpred⟩ := hx
  subst hxu
  simp only [Bool.and_eq_true, Bool.not_eq_true'] at hpred
  exact ⟨hpred.1.1, hpred.1.2, hpred.2⟩

/-- Witness for C5 (amended): a URL kept by the filter satisfies the three
substring conditions. -/
theorem claim5_witness :
    "https://e/d.nc" ∈ filterGranuleUrls
      [{ href := "https://e/a.nc4" }, { href := "http://e/b.nc" },
       { href := "https://e/c.nc.dmrpp" }, { href := "https://e/d.nc" }]
    ∧ strContains "https://e/d.nc" "https" = true
    ∧ strContains "https://e/d.nc" ".nc" = true
    ∧ strContains "https://e/d.nc" ".dmrpp" = false := by
  refine ⟨by decide, ?_⟩
  have h := claim5_url_filter
    [{ href := "https://e/a.nc4" }, { href := "http://e/b.nc" },
     { href := "https://e/c.nc.dmrpp" }, { href := "https://e/d.nc" }]
    "https://e/d.nc" (by decide)
  exact ⟨h.1, h.2.1, h.2.2⟩

/-! ## Claims C7 and C9: pagination and concept-id resolution -/

/-- The query posted for page `page_num`: fixed page size 2000, the
resolved concept id, the caller's temporal window, and the point string. -/
def cmrQueryAt (concept_id temporal_str point : String) (page_num : Nat) : CmrQuery :=
  { collection_concept_id := concept_id, page_size := 2000, page_num := page_num,
    temporal := temporal_str, point := point }

/-- The pagination loop, started at page `k`, visits exactly the pages
`k, k+1, ..., m` where `m` is the first empty page at or after `k`, and
accumulates the records of the non-empty pages in order. -/
theorem gsLoop_pagination (pages : Nat → List GEntry)
    (concept_id site_no station_nm site_lat site_lon temporal_str : String)
    (m : Nat) (hm : pages m = []) :
    ∀ (fuel k : Nat) (acc : List GranuleRow), k ≤ m →
      (∀ j, k ≤ j → j < m → pages j ≠ []) → m - k < fuel →
      gsLoop pages concept_id site_no station_nm site_lat site_lon temporal_str
          k acc fuel =
        some ((List.range' k (m - k + 1)).map
                (cmrQueryAt concept_id temporal_str (s!"{site_lon},{site_lat}")),
              acc ++ ((List.range' k (m - k)).map
                (fun j => (pages j).map
                  (mkGranuleRec site_no station_nm site_lat site_lon))).flatten) := by
  intro fuel
  induction fuel with
  | zero =>
    intro k acc hk hmin hf
    exact absurd hf (Nat.not_lt_zero _)
  | succ fuel ih =>
    intro k acc hk hmin hf
    by_cases hkm : k = m
    · have hpk : pages k = [] := hkm ▸ hm
      have hie : (pages k).isEmpty = true := by rw [hpk]; rfl
      have h0 : m - k = 0 := by omega
      simp [gsLoop, hie, h0, List.range'_succ, cmrQueryAt]
    · have hklt : k < m := Nat.lt_of_le_of_ne hk hkm
      have hne : pages k ≠ [] := hmin k (Nat.le_refl k) hklt
      have hie : (pages k).isEmpty = false := by
        cases hpk : pages k with
        | nil => exact absurd hpk hne
        | cons a l => rfl
      have hrec := ih (k + 1)
        (acc ++ (pages k).map (mkGranuleRec site_no station_nm site_lat site_lon))
        (by omega) (fun j hj1 hj2 => hmin j (by omega) hj2) (by omega)
      have h1 : m - k + 1 = (m - (k + 1) + 1) + 1 := by omega
      have h2 : m - k = (m - (k + 1)) + 1 := by omega
      have hq : List.range' k (m - k + 1) = k :: List.range' (k + 1) (m - (k + 1) + 1) := by
        rw [h1, List.range'_succ]
      have hr : List.range' k (m - k) = k :: List.range' (k + 1) (m - (k + 1)) := by
        rw [h2, List.range'_succ]
      simp only [gsLoop, hie, Bool.false_eq_true, if_false, hrec, hq, hr,
        List.map_cons, List.flatten_cons, cmrQueryAt, List.append_assoc]

/-- Claim C7: per site, the granule search posts page numbers 1, 2, 3, ...
with page size 2000 (see `cmrQueryAt`), continues exactly while responses
are non-empty, stops at the first empty page; and the loop terminates
whenever some page is eventually empty. -/
theorem claim7_pagination (pages : Nat → List GEntry)
    (site_no station_nm site_lat site_lon temporal_str : String)
    (e : CollEntry) (es : List CollEntry) (m fuel : Nat)
    (h1 : 1 ≤ m) (hm : pages m = [])
    (hmin : ∀ j, 1 ≤ j → j < m → pages j ≠ []) (hf : m ≤ fuel) :
    get_site_granules site_no station_nm site_lat site_lon temporal_str
        (e :: es) pages fuel
      = some ((List.range' 1 m).map
                (cmrQueryAt e.id temporal_str (s!"{site_lon},{site_lat}")),
              ((List.range' 1 (m - 1)).map
                (fun j => (pages j).map
                  (mkGranuleRec site_no station_nm site_lat site_lon))).flatten)
    ∧ (∀ m' fuel', 1 ≤ m' → pages m' = [] → m' ≤ fuel' →
        ∃ r, get_site_granules site_no station_nm site_lat site_lon temporal_str
          (e :: es) pages fuel' = some r) := by
  constructor
  · have h := gsLoop_pagination pages e.id site_no station_nm site_lat site_lon
      temporal_str m hm fuel 1 [] h1 (fun j hj1 hj2 => hmin j hj1 hj2) (by omega)
    rw [get_site_granules, h]
    have hm1 : m - 1 + 1 = m := by omega
    rw [hm1]
    simp
  · intro m' fuel' hm'1 hm' hfuel'
    have hex : ∃ j, 1 ≤ j ∧ pages j = [] := ⟨m', hm'1, hm'⟩
    have hspec := Nat.find_spec hex
    have hle : Nat.find hex ≤ m' := Nat.find_min' hex ⟨hm'1, hm'⟩
    have hminf : ∀ j, 1 ≤ j → j < Nat.find hex → pages j ≠ [] := by
      intro j hj1 hjlt hnil
      exact Nat.find_min hex hjlt ⟨hj1, hnil⟩
    have h := gsLoop_pagination pages e.id site_no station_nm site_lat site_lon
      temporal_str (Nat.find hex) hspec.2 fuel' 1 [] hspec.1 hminf (by omega)
    exact ⟨_, by rw [get_site_granules, h]⟩

/-- Fixture pages: page 1 has one granule entry, every later page is
empty. -/
def cPages : Nat → List GEntry := fun n =>
  if n = 1 then [{ links := [{ href := "https://a.nc" }], time_start := some "2020" }] else []

/-- Witness for C7: with one non-empty page, the queries posted are for
pages 1 and 2 (both with page size 2000) and the single record is
collected. -/
theorem claim7_witness :
    1 ≤ 2 ∧ cPages 2 = [] ∧ 2 ≤ (5 : Nat)
    ∧ get_site_granules "s" "n" "30.0" "-90.0" "tw" [{ id := "C123" }] cPages 5
      = some ((List.range' 1 2).map (cmrQueryAt "C123" "tw" "-90.0,30.0"),
              ((List.range' 1 1).map
                (fun j => (cPages j).map (mkGranuleRec "s" "n" "30.0" "-90.0"))).flatten) :=
  ⟨by decide, by decide, by decide,
   (claim7_pagination cPages "s" "n" "30.0" "-90.0" "tw" { id := "C123" } [] 2 5
     (by decide) (by decide)
     (by
       intro j hj1 hj2
       have hj : j = 1 := by omega
       subst hj
       decide)
     (by decide)).1⟩

theorem gsLoop_concept_id (pages : Nat → List GEntry)
    (concept_id site_no station_nm site_lat site_lon temporal_str : String) :
    ∀ (fuel k : Nat) (acc : List GranuleRow) (qs : List CmrQuery)
      (recs : List GranuleRow),
      gsLoop pages concept_id site_no station_nm site_lat site_lon temporal_str
        k acc fuel = some (qs, recs) →
      ∀ q ∈ qs, q.collection_concept_id = concept_id := by
  intro fuel
  induction fuel with
  | zero =>
    intro k acc qs recs h
    exact absurd h (by rw [gsLoop]; simp)
  | succ fuel ih =>
    intro k acc qs recs h q hq
    rw [gsLoop] at h
    by_cases hie : (pages k).isEmpty
    · rw [if_pos hie, Option.some_inj] at h
      injection h with hfst hsnd
      subst hfst
      rw [List.mem_singleton] at hq
      rw [hq]
    · rw [if_neg hie] at h
      cases hrec : gsLoop pages concept_id site_no station_nm site_lat site_lon
          temporal_str (k + 1)
          (acc ++ (pages k).map (mkGranuleRec site_no station_nm site_lat site_lon))
          fuel with
      | none => rw [hrec] at h; simp at h
      | some p =>
        cases p with
        | mk qs' recs' =>
          rw [hrec] at h
          simp only [Option.some_inj] at h
          injection h with hfst hsnd
          subst hfst
          rcases List.mem_cons.mp hq with hq1 | hq2
          · rw [hq1]
          · exact ih (k + 1) _ qs' recs' (by rw [hrec]) q hq2

/-- Claim C9: an empty collection-lookup entry list makes
get_site_granules fail outright (uncaught indexing error, modelled by
`none`) rather than return a handled error or an empty result; when
entries exist, the lookup result is consulted once — only the first
entry's id flows into every granule query, and the rest of the entry list
is never used. -/
theorem claim9_lookup (site_no station_nm site_lat site_lon temporal_str : String)
    (pages : Nat → List GEntry) (fuel : Nat) (e : CollEntry) (es : List CollEntry)
    (qs : List CmrQuery) (recs : List GranuleRow)
    (h : get_site_granules site_no station_nm site_lat site_lon temporal_str
      (e :: es) pages fuel = some (qs, recs)) :
    get_site_granules site_no station_nm site_lat site_lon temporal_str
        ([] : List CollEntry) pages fuel = none
    ∧ (∀ q ∈ qs, q.collection_concept_id = e.id)
    ∧ (∀ es2 : List CollEntry,
        get_site_granules site_no station_nm site_lat site_lon temporal_str
          (e :: es2) pages fuel
        = get_site_granules site_no station_nm site_lat site_lon temporal_str
          (e :: es) pages fuel) := by
  refine ⟨rfl, ?_, fun es2 => rfl⟩
  have h2 : gsLoop pages e.id site_no station_nm site_lat site_lon temporal_str
      1 [] fuel = some (qs, recs) := h
  exact gsLoop_concept_id pages e.id site_no station_nm site_lat site_lon
    temporal_str fuel 1 [] qs recs h2

/-- Witness for C9 at the fixture pages. -/
theorem claim9_witness :
    get_site_granules "s" "n" "30.0" "-90.0" "tw" [{ id := "C123" }] cPages 5
      = some ([cmrQueryAt "C123" "tw" "-90.0,30.0" 1, cmrQueryAt "C123" "tw" "-90.0,30.0" 2],
              [mkGranuleRec "s" "n" "30.0" "-90.0"
                { links := [{ href := "https://a.nc" }], time_start := some "2020" }])
    ∧ get_site_granules "s" "n" "30.0" "-90.0" "tw" ([] : List CollEntry) cPages 5 = none
    ∧ (∀ q ∈ [cmrQueryAt "C123" "tw" "-90.0,30.0" 1, cmrQueryAt "C123" "tw" "-90.0,30.0" 2],
        q.collection_concept_id = "C123") := by
  refine ⟨by decide, ?_, ?_⟩
  · exact (claim9_lookup "s" "n" "30.0" "-90.0" "tw" cPages 5 { id := "C123" } []
      [cmrQueryAt "C123" "tw" "-90.0,30.0" 1, cmrQueryAt "C123" "tw" "-90.0,30.0" 2]
      [mkGranuleRec "s" "n" "30.0" "-90.0"
        { links := [{ href := "https://a.nc" }], time_start := some "2020" }]
      (by decide)).1
  · exact (claim9_lookup "s" "n" "30.0" "-90.0" "tw" cPages 5 { id := "C123" } []
      [cmrQueryAt "C123" "tw" "-90.0,30.0" 1, cmrQueryAt "C123" "tw" "-90.0,30.0" 2]
      [mkGranuleRec "s" "n" "30.0" "-90.0"
        { links := [{ href := "https://a.nc" }], time_start := some "2020" }]
      (by decide)).2.1

/-! ## Claim C8: per-region failures in the site locator batch -/

theorem gpsCollect_skip (site_types : List String) (b : RdbResp)
    (hb : processState site_types b = some none) :
    ∀ (xs ys : List RdbResp),
      gpsCollect site_types (xs ++ b :: ys) = gpsCollect site_types (xs ++ ys) := by
  intro xs
  induction xs with
  | nil =>
    intro ys
    unfold gpsCollect
    rw [List.nil_append, List.nil_append, optionMapM_cons, hb]
    simp only [Option.some_bind]
    cases optionMapM (processState site_types) ys <;>
      simp [List.filterMap_cons]
  | cons x xs ih =>
    intro ys
    unfold gpsCollect at ih ⊢
    rw [List.cons_append, List.cons_append, optionMapM_cons, optionMapM_cons]
    cases hfx : processState site_types x with
    | none => simp
    | some v =>
      simp only [Option.some_bind]
      have hih := ih ys
      cases hA : optionMapM (processState site_types) (xs ++ b :: ys) with
      | none =>
        cases hB : optionMapM (processState site_types) (xs ++ ys) with
        | none => simp
        | some lB => rw [hA, hB] at hih; simp at hih
      | some lA =>
        cases hB : optionMapM (processState site_types) (xs ++ ys) with
        | none => rw [hA, hB] at hih; simp at hih
        | some lB =>
          rw [hA, hB] at hih
          simp only [Option.map_some', Option.some_inj] at hih
          cases v <;> simp [List.filterMap_cons, hih]

/-- Claim C8 amended: a region whose response is non-200 or has no data
lines contributes nothing (an empty contribution, modelled by `some none`)
and never aborts the batch — deleting it from the batch leaves the whole
result, successful regions' rows included, unchanged.  (No per-region
diagnostic is emitted by this batch variant; the only messages are the
final count or the all-regions-failed message.) -/
theorem claim8_batch (site_types : List String) (xs ys : List RdbResp)
    (respB : RdbResp)
    (hB : respB.status ≠ 200 ∨ rdbDataLines respB = []) :
    processState site_types respB = some none
    ∧ get_param_sites site_types (xs ++ respB :: ys)
        = get_param_sites site_types (xs ++ ys) := by
  have hps : processState site_types respB = some none := by
    rcases hB with hB | hB
    · unfold processState
      rw [if_neg hB]
    · unfold processState
      by_cases h200 : respB.status = 200
      · rw [if_pos h200, hB]
      · rw [if_neg h200]
  refine ⟨hps, ?_⟩
  unfold get_param_sites
  rw [gpsCollect_skip site_types respB hps xs ys]

/-- Region A: three sites of type "ST". -/
def respA : RdbResp :=
  { status := 200,
    lines := ["# comment",
              "site_no\tstation_nm\tdec_lat_va\tdec_long_va\tsite_tp_cd",
              "5s\t50s\t16s\t16s\t7s",
              "1\tA\t10\t20\tST",
              "2\tB\t11\t21\tST",
              "3\tC\t12\t22\tST"] }

/-- Region B: a failed (non-200) response. -/
def respB8 : RdbResp := { status := 404, lines := [] }

/-- Claim C8 counterexample: with region A (3 sites) and region B
(non-200), the output table holds exactly region A's sites, but the only
message emitted is the success count "3" — no diagnostic noting region B's
failure is produced (the claim's per-region diagnostic does not exist in
the batch variant). -/
theorem claim8_counterexample :
    get_param_sites ["ST"] [respA, respB8]
      = some (["3"], [["1", "A", "10", "20"], ["2", "B", "11", "21"],
                      ["3", "C", "12", "22"]])
    ∧ "No sites found for any states" ∉ ["3"] := by
  exact ⟨by decide, by decide⟩

/-- Witness for C8 (amended) at the two-region fixture. -/
theorem claim8_witness :
    (respB8.status ≠ 200 ∨ rdbDataLines respB8 = [])
    ∧ processState ["ST"] respB8 = some none
    ∧ get_param_sites ["ST"] ([respA] ++ respB8 :: [])
        = get_param_sites ["ST"] ([respA] ++ []) :=
  ⟨Or.inl (by decide),
   (claim8_batch ["ST"] [respA] [] respB8 (Or.inl (by decide))).1,
   (claim8_batch ["ST"] [respA] [] respB8 (Or.inl (by decide))).2⟩
